import Mathlib

/-!
Verification of the go_handler upload server (src/handler.go, with the
earlier revision src/unnamed/part_000) against its specification.

The embedding is shallow: the pure logic of the Go functions is translated
into executable Lean definitions.  Strings are Lean `String`s manipulated
through `List Char` so that every definition reduces inside the kernel.
Filesystem writes and HTTP responses become explicit effect lists; the wall
clock is an explicit parameter in milliseconds; the global limiter registry
is threaded as an explicit association list.
-/

/-- Split a character list at every occurrence of `sep`; `cur` accumulates the
current component reversed.  Models Go's splitting of a string on a separator
byte (strings.Split semantics: n+1 components for n separators). -/
def splitChars (sep : Char) : List Char → List Char → List (List Char)
  | [], cur => [cur.reverse]
  | c :: cs, cur =>
    if c = sep then cur.reverse :: splitChars sep cs []
    else splitChars sep cs (c :: cur)

/-- Index of the first occurrence of `c`, if any (Go's byteIndex). -/
def indexOfChar (c : Char) : List Char → Option Nat
  | [] => none
  | a :: as => if a = c then some 0 else (indexOfChar c as).map (· + 1)

/-- Index of the last occurrence of `c`, if any (Go's last). -/
def lastIndexOfChar (c : Char) (l : List Char) : Option Nat :=
  match indexOfChar c l.reverse with
  | none => none
  | some i => some (l.length - 1 - i)

/-- Boolean list-prefix test on characters. -/
def strPrefixOf : List Char → List Char → Bool
  | [], _ => true
  | _ :: _, [] => false
  | a :: as, b :: bs => decide (a = b) && strPrefixOf as bs

/-- Decimal digits of a positive number, most significant first; `fuel` bounds
the recursion and any `fuel ≥ n` is enough. -/
def natDigits : Nat → Nat → List Char
  | 0, _ => []
  | fuel + 1, n =>
    if n = 0 then []
    else natDigits fuel (n / 10) ++ [Char.ofNat (48 + n % 10)]

/-- Decimal representation of a natural number. -/
def natRepr (n : Nat) : String :=
  if n = 0 then "0" else String.mk (natDigits (n + 1) n)

/-- Error text of Go's net.AddrError: "address <addr>: <why>". -/
def addrErr (addr why : String) : String := "address " ++ addr ++ ": " ++ why

/-- Models net.SplitHostPort: split "host:port" (with optional brackets around
an IPv6 host) into host and port, or the error net/ipsock.go produces. -/
def splitHostPort (hostport : String) : Except String (String × String) :=
  let l := hostport.data
  match lastIndexOfChar ':' l with
  | none => Except.error (addrErr hostport "missing port in address")
  | some i =>
    if l.head? = some '[' then
      match indexOfChar ']' l with
      | none => Except.error (addrErr hostport "missing \x27]\x27 in address")
      | some e =>
        if e + 1 = l.length then Except.error (addrErr hostport "missing port in address")
        else if e + 1 = i then
          if (indexOfChar '[' (l.drop 1)).isSome then
            Except.error (addrErr hostport "unexpected \x27[\x27 in address")
          else if (indexOfChar ']' (l.drop (e + 1))).isSome then
            Except.error (addrErr hostport "unexpected \x27]\x27 in address")
          else Except.ok (String.mk ((l.drop 1).take (e - 1)), String.mk (l.drop (i + 1)))
        else if (l.drop (e + 1)).head? = some ':' then
          Except.error (addrErr hostport "too many colons in address")
        else Except.error (addrErr hostport "missing port in address")
    else
      if (indexOfChar ':' (l.take i)).isSome then
        Except.error (addrErr hostport "too many colons in address")
      else if (indexOfChar '[' l).isSome then
        Except.error (addrErr hostport "unexpected \x27[\x27 in address")
      else if (indexOfChar ']' l).isSome then
        Except.error (addrErr hostport "unexpected \x27]\x27 in address")
      else Except.ok (String.mk (l.take i), String.mk (l.drop (i + 1)))

/-- Decimal digit test on a character. -/
def isDigit (c : Char) : Bool := decide (48 ≤ c.toNat) && decide (c.toNat ≤ 57)

/-- One dotted-quad field as net.ParseIP accepts it: one to three decimal
digits, value at most 255, no leading zero. -/
def parseV4Field (f : List Char) : Option Nat :=
  if f = [] then none
  else if (f.all isDigit) = false then none
  else if 1 < f.length ∧ f.head? = some '0' then none
  else if 3 < f.length then none
  else
    let n := f.foldl (fun a c => a * 10 + (c.toNat - 48)) 0
    if 255 < n then none else some n

/-- Parse every field of a dotted address. -/
def parseV4Fields : List (List Char) → Option (List Nat)
  | [] => some []
  | f :: fs =>
    match parseV4Field f, parseV4Fields fs with
    | some n, some ns => some (n :: ns)
    | _, _ => none

/-- Models net.ParseIP followed by IP.String(): the canonical text of the
address when the input parses.  Only IPv4 dotted-quad literals are modelled;
IPv6 literals are treated as unparseable (the program's allowlists and headers
use IPv4 text). -/
def parseIP (s : String) : Option String :=
  match parseV4Fields (splitChars '.' s.data []) with
  | some [a, b, c, d] =>
    some (natRepr a ++ "." ++ natRepr b ++ "." ++ natRepr c ++ "." ++ natRepr d)
  | _ => none

/-- Upper-case hexadecimal digit of a value below 16 (net/url's escaping). -/
def hexDigit (n : Nat) : Char :=
  if n < 10 then Char.ofNat (48 + n) else Char.ofNat (55 + n)

/-- UTF-8 bytes of a unicode scalar value. -/
def utf8Bytes (n : Nat) : List Nat :=
  if n < 128 then [n]
  else if n < 2048 then [192 + n / 64, 128 + n % 64]
  else if n < 65536 then [224 + n / 4096, 128 + n / 64 % 64, 128 + n % 64]
  else [240 + n / 262144, 128 + n / 4096 % 64, 128 + n / 64 % 64, 128 + n % 64]

/-- Which characters net/url's shouldEscape keeps verbatim in mode
encodePathSegment: alphanumerics, the RFC 3986 unreserved marks - _ . ~ and
the sub-delims allowed inside a path segment $ & + : = ? @ ; the bytes
/ ; , and everything else are escaped. -/
def pathSegmentUnescaped (c : Char) : Bool :=
  let n := c.toNat
  (decide (65 ≤ n) && decide (n ≤ 90)) ||
  (decide (97 ≤ n) && decide (n ≤ 122)) ||
  (decide (48 ≤ n) && decide (n ≤ 57)) ||
  [45, 95, 46, 126, 36, 38, 43, 58, 61, 63, 64].contains n

/-- Character-list body of `pathEscape`. -/
def pathEscapeChars : List Char → List Char
  | [] => []
  | c :: cs =>
    (if pathSegmentUnescaped c then [c]
     else (utf8Bytes c.toNat).foldr
       (fun b acc => '%' :: hexDigit (b / 16) :: hexDigit (b % 16) :: acc) []) ++
    pathEscapeChars cs

/-- Models net/url.PathEscape: percent-encode every UTF-8 byte of every
character that shouldEscape reports for a path segment. -/
def pathEscape (s : String) : String := String.mk (pathEscapeChars s.data)

/-- The component pass of Go's path/filepath.Clean: drop empty and "."
components, resolve ".." against the accumulated output (held reversed in
`acc`), keeping leading ".." segments only for relative paths. -/
def cleanComps (rooted : Bool) : List (List Char) → List (List Char) → List (List Char)
  | [], acc => acc.reverse
  | c :: cs, acc =>
    if c = [] ∨ c = ['.'] then cleanComps rooted cs acc
    else if c = ['.', '.'] then
      match acc with
      | [] => cleanComps rooted cs (if rooted then [] else [['.', '.']])
      | a :: rest =>
        if a = ['.', '.'] then cleanComps rooted cs (c :: a :: rest)
        else cleanComps rooted cs rest
    else cleanComps rooted cs (c :: acc)

/-- Join components with the path separator. -/
def joinComps : List (List Char) → List Char
  | [] => []
  | [c] => c
  | c :: cs => c ++ '/' :: joinComps cs

/-- Models path/filepath.Clean for slash-separated (Unix) paths. -/
def filepathClean (p : String) : String :=
  if p = "" then "."
  else
    let rooted := p.data.head? = some '/'
    let comps := cleanComps rooted (splitChars '/' p.data []) []
    let out := String.mk (joinComps comps)
    if rooted then "/" ++ out
    else if out = "" then "." else out

/-- Join a list of strings with "/" between them. -/
def intercalateSlash : List String → String
  | [] => ""
  | [s] => s
  | s :: rest => s ++ "/" ++ intercalateSlash rest

/-- Models path/filepath.Join on Unix: drop empty elements, join the rest with
the separator and Clean the result; all elements empty gives "". -/
def filepathJoin (elems : List String) : String :=
  match elems.filter (fun e => decide (e ≠ "")) with
  | [] => ""
  | ne => filepathClean (intercalateSlash ne)

/-- `p` lies lexically within the directory `base`: after cleaning, it equals
the cleaned base or extends it past a path separator. -/
def isWithin (base p : String) : Bool :=
  let b := filepathClean base
  decide (p = b) || strPrefixOf (b ++ "/").data p.data

/-- The rateLimit constant of handler.go, in tokens per second. -/
def rateLimit : Int := 20

/-- State of one golang.org/x/time/rate.Limiter with burst 1.  Tokens are
exact numbers scaled by 1000 (millitokens, burst capacity = 1000); timestamps
are wall-clock milliseconds, so the refill rate of 20 tokens/s is 20
millitokens per millisecond.  x/time/rate stores float64 tokens; at this rate,
burst and time granularity the float64 computation is exact and agrees with
this integer model. -/
structure Bucket where
  tokens : Int
  last : Nat
deriving DecidableEq, Repr

/-- Models Limiter.Allow, i.e. AllowN(now, 1): advance the token count by the
elapsed time capped at the burst, then consume one token if at least one is
available; when no token is available the limiter state is left unchanged
(reserveN restores last and tokens on failure). -/
def bucketAllow (b : Bucket) (now : Nat) : Bool × Bucket :=
  let elapsed : Int := if b.last ≤ now then (now : Int) - (b.last : Int) else 0
  let t : Int := min 1000 (b.tokens + rateLimit * elapsed)
  if 1000 ≤ t then (true, ⟨t - 1000, now⟩) else (false, b)

/-- The limiter registry ipLimitGLB.limiter: identity to bucket. -/
abbrev LimiterMap := List (String × Bucket)

/-- Association-list lookup in the registry. -/
def lookupBucket : LimiterMap → String → Option Bucket
  | [], _ => none
  | (k, b) :: rest, ip => if k = ip then some b else lookupBucket rest ip

/-- Replace (or append) the bucket stored for `ip`. -/
def setBucket : LimiterMap → String → Bucket → LimiterMap
  | [], ip, b => [(ip, b)]
  | (k, b0) :: rest, ip, b =>
    if k = ip then (ip, b) :: rest else (k, b0) :: setBucket rest ip b

/-- Models ipLimiter.getLimiter: fetch the bucket for `ip`, creating one on
first access.  A fresh x/time/rate limiter has zero tokens and the zero time
as its last stamp, so its first advance clamps the tokens to the full burst;
creating the bucket already full at the current time is behaviourally
identical.  Returns the bucket and the updated registry. -/
def getLimiter (m : LimiterMap) (ip : String) (now : Nat) : Bucket × LimiterMap :=
  match lookupBucket m ip with
  | some b => (b, m)
  | none => (⟨1000, now⟩, m ++ [(ip, ⟨1000, now⟩)])

/-- getLimiter followed by Allow() on the returned limiter, with the mutation
of the shared limiter written back into the registry. -/
def limiterAllow (m : LimiterMap) (ip : String) (now : Nat) : Bool × LimiterMap :=
  let bm := getLimiter m ip now
  let ob := bucketAllow bm.1 now
  (ob.1, setBucket bm.2 ip ob.2)

/-- An HTTP request as the handler sees it: method, RemoteAddr, the
canonical-key header map (each key holding a list of values, as Go's
http.Header), and the body bytes. -/
structure Request where
  method : String
  remoteAddr : String
  headers : List (String × List String)
  body : String
deriving DecidableEq, Repr

/-- Map access r.Header[key]: the value list when the key is present. -/
def headerValues : List (String × List String) → String → Option (List String)
  | [], _ => none
  | (k, vs) :: rest, key => if k = key then some vs else headerValues rest key

/-- Models http.Header.Get: the first value for the key, or "". -/
def headerGet (hs : List (String × List String)) (key : String) : String :=
  match headerValues hs key with
  | some (v :: _) => v
  | _ => ""

/-- Models ipList.contains: linear scan for an equal address string. -/
def ipList.contains (l : List String) (ip : String) : Bool :=
  match l with
  | [] => false
  | i :: rest => if i = ip then true else ipList.contains rest ip

/-- The outcome of getRequestError: nil (admitted) or an errResp payload. -/
inductive AdmissionResult where
  | admitted
  | rejected (msg : String)
deriving DecidableEq, Repr

/-- The X-Real-Ip override of getRequestError: when the header is present
(len(xri) > 0) and net.ParseIP accepts it, the canonical text the working
identity is replaced with. -/
def xriOverride (r : Request) : Option String :=
  let xri := headerGet r.headers "X-Real-Ip"
  if 0 < xri.data.length then parseIP xri else none

/-- The identity the pipeline ultimately rate-limits: the X-Real-Ip override
when present and parseable, otherwise the remote host. -/
def resolvedIdentity (r : Request) (host : String) : String :=
  match xriOverride r with
  | some c => c
  | none => host

/-- The rate-limit tail of getRequestError: fetch-or-create the limiter for
the final identity, consume a token, reject when none is available. -/
def rateStep (m : LimiterMap) (now : Nat) (ip : String) : AdmissionResult × LimiterMap :=
  let om := limiterAllow m ip now
  if om.1 then (AdmissionResult.admitted, om.2)
  else (AdmissionResult.rejected ("Rate limit exceeded for IP: " ++ ip), om.2)

/-- Models getRequestError of src/handler.go: POST check, remote-address
parse, allowlist check (guarded by len(ips) > 0), X-Real-Ip override with its
own unguarded membership check, then the per-identity rate limit.  `ips` is
settings.getIPs(), `m` the limiter registry, `now` the wall clock in ms. -/
def getRequestError (ips : List String) (m : LimiterMap) (now : Nat) (r : Request) :
    AdmissionResult × LimiterMap :=
  if r.method ≠ "POST" then (AdmissionResult.rejected "Only POST allowed", m)
  else
    match splitHostPort r.remoteAddr with
    | Except.error e => (AdmissionResult.rejected e, m)
    | Except.ok (ip0, _) =>
      if 0 < ips.length ∧ ipList.contains ips ip0 = false then
        (AdmissionResult.rejected ("IP is not allowed: " ++ ip0), m)
      else
        match xriOverride r with
        | some ip1 =>
          if ipList.contains ips ip1 = false then
            (AdmissionResult.rejected ("IP is not allowed: " ++ ip1), m)
          else rateStep m now ip1
        | none => rateStep m now ip0

/-- A filesystem side effect of the upload handler. -/
inductive FsEffect where
  | mkdir (path : String)
  | mkdirAll (path : String)
  | createFile (path : String) (contents : String)
deriving DecidableEq, Repr

/-- A payload written to the HTTP response. -/
inductive Response where
  | urlJson (url : String)
  | errJson (msg : String)
  | rawText (s : String)
deriving DecidableEq, Repr

/-- What one call to readRequest does: its filesystem effects in order, the
responses it sends, and the error it returns (none = nil). -/
structure UploadResult where
  effects : List FsEffect
  responses : List Response
  err : Option String
deriving DecidableEq, Repr

/-- Models readRequest of src/handler.go.  `fileDir` is settings.getFileDir(),
`baseUrl` settings.getURL(); `dirIsDir p` is the os.Stat check: whether `p`
currently exists and is a directory.  The filesystem operations themselves
(MkdirAll, Create, Write) are assumed to succeed; their error returns are I/O
failures outside this model. -/
def readRequest (fileDir baseUrl : String) (dirIsDir : String → Bool) (r : Request) :
    UploadResult :=
  match headerValues r.headers "Dir" with
  | some (dir0 :: _) =>
    let dirPath := filepathJoin [fileDir, dir0]
    let mk : List FsEffect := if dirIsDir dirPath then [] else [FsEffect.mkdirAll dirPath]
    match headerValues r.headers "Filename" with
    | some (name0 :: _) =>
      let allowedFileName := pathEscape name0
      let filePath := filepathJoin [fileDir, dir0, allowedFileName]
      { effects := mk ++ [FsEffect.createFile filePath r.body],
        responses := [Response.urlJson (baseUrl ++ "/" ++ dir0 ++ "/" ++ allowedFileName)],
        err := none }
    | _ => { effects := mk, responses := [], err := none }
  | _ => { effects := [], responses := [], err := some "expected Dir header" }

/-- Models readRequest of the src/unnamed/part_000 revision: rooted at absPath,
os.Mkdir instead of MkdirAll, the Filename header joined into the path with NO
escaping, and no response body on success. -/
def readRequestPart0 (absPath : String) (dirIsDir : String → Bool) (r : Request) :
    UploadResult :=
  match headerValues r.headers "Dir" with
  | some (dir0 :: _) =>
    let dirPath := filepathJoin [absPath, dir0]
    let mk : List FsEffect := if dirIsDir dirPath then [] else [FsEffect.mkdir dirPath]
    match headerValues r.headers "Filename" with
    | some (name0 :: _) =>
      let filePath := filepathJoin [absPath, dir0, name0]
      { effects := mk ++ [FsEffect.createFile filePath r.body],
        responses := [], err := none }
    | _ => { effects := mk, responses := [], err := none }
  | _ => { effects := [], responses := [], err := some "expected Dir header" }

/-- What one call to requestHandler does: filesystem effects, responses sent,
and the limiter registry afterwards. -/
structure HandlerResult where
  effects : List FsEffect
  responses : List Response
  limiters : LimiterMap
deriving DecidableEq, Repr

/-- Models requestHandler of src/handler.go: run the admission pipeline; on a
rejection encode the errResp payload and stop; on admission run readRequest
and, when it returns an error, send the error payload followed by the plain
error text (the fmt.Fprint call).  getRequestError never returns a non-nil Go
error, so the log-only first branch of the Go code is unreachable and the
logging calls, which write no response, are not modelled. -/
def requestHandler (ips : List String) (fileDir baseUrl : String)
    (dirIsDir : String → Bool) (m : LimiterMap) (now : Nat) (r : Request) : HandlerResult :=
  match getRequestError ips m now r with
  | (AdmissionResult.rejected msg, m1) =>
    { effects := [], responses := [Response.errJson msg], limiters := m1 }
  | (AdmissionResult.admitted, m1) =>
    let u := readRequest fileDir baseUrl dirIsDir r
    match u.err with
    | some e =>
      { effects := u.effects,
        responses := u.responses ++ [Response.errJson e, Response.rawText e],
        limiters := m1 }
    | none => { effects := u.effects, responses := u.responses, limiters := m1 }

/-- The filesystem assumption that no directory exists yet. -/
def noDirs : String → Bool := fun _ => false

/-- C1's failing input: empty allowlist, parseable remote address, valid
X-Real-Ip header. -/
def c1Request : Request :=
  { method := "POST", remoteAddr := "10.0.0.5:3333",
    headers := [("X-Real-Ip", ["8.8.8.8"])], body := "" }

/-- The same request without the X-Real-Ip header. -/
def c1RequestBare : Request :=
  { method := "POST", remoteAddr := "10.0.0.5:3333", headers := [], body := "" }

/-- C2's failing input for the part_000 revision: a traversal filename. -/
def c2Request : Request :=
  { method := "POST", remoteAddr := "127.0.0.1:5000",
    headers := [("Dir", ["docs"]), ("Filename", ["../../pwn"])], body := "x" }

/-- A GET request, for the method check. -/
def c8Request : Request :=
  { method := "GET", remoteAddr := "127.0.0.1:1", headers := [], body := "" }

/-- A POST request with no Dir header. -/
def c7Request : Request :=
  { method := "POST", remoteAddr := "127.0.0.1:1", headers := [], body := "" }

/-- A POST request from a host outside the allowlist ["127.0.0.1"]. -/
def c6Request : Request :=
  { method := "POST", remoteAddr := "10.0.0.1:99", headers := [], body := "" }

/-- A bare POST request from the allowlisted 127.0.0.1. -/
def c5Request : Request :=
  { method := "POST", remoteAddr := "127.0.0.1:40000", headers := [], body := "" }

/-- The limiter registry after c5Request is admitted at time 0. -/
def c5StateAfterFirst : LimiterMap :=
  (getRequestError ["127.0.0.1"] [] 0 c5Request).2

/-- The spec's success scenario request. -/
def c9Request : Request :=
  { method := "POST", remoteAddr := "127.0.0.1:55000",
    headers := [("Dir", ["docs"]), ("Filename", ["a.txt"])], body := "hello" }

/-- A POST request with a Dir header but no Filename header. -/
def c10Request : Request :=
  { method := "POST", remoteAddr := "127.0.0.1:2",
    headers := [("Dir", ["docs"])], body := "ignored" }

example : splitHostPort "127.0.0.1:8080" = Except.ok ("127.0.0.1", "8080") := rfl
example : splitHostPort "127.0.0.1" = Except.error "address 127.0.0.1: missing port in address" := rfl
example : parseIP "8.8.8.8" = some "8.8.8.8" := by decide
example : parseIP "8.8.8.08" = none := by decide
example : parseIP "256.1.1.1" = none := by decide
example : parseIP "abc" = none := by decide
example : pathEscape "a.txt" = "a.txt" := by decide
example : pathEscape "../x" = "..%2Fx" := by decide
example : filepathClean "/srv/files/../../x" = "/x" := by decide
example : filepathJoin ["/srv/files", "docs", "a.txt"] = "/srv/files/docs/a.txt" := by decide
example : filepathJoin ["/srv/app", "docs", "../../pwn"] = "/srv/pwn" := by decide
example : isWithin "/srv/app" "/srv/pwn" = false := by decide
example : isWithin "/srv/app" "/srv/app/docs/a.txt" = true := by decide

/-- C1: the claim fails on the code.  With an empty allowlist, a POST whose
remote address parses is admitted when no override header is present, but the
same request carrying a syntactically valid X-Real-Ip header is rejected with
an address-not-allowed error: the membership test run after the override
(handler.go line 208) is not guarded by len(ips) > 0, contradicting the
spec's "an empty allowlist means allow all". -/
theorem c1_empty_allowlist_rejects_on_xrealip :
    (getRequestError [] [] 0 c1Request).1 =
      AdmissionResult.rejected "IP is not allowed: 8.8.8.8" ∧
    (getRequestError [] [] 0 c1RequestBare).1 = AdmissionResult.admitted := by
  decide

/-- C2: the claim fails on the part_000 revision, which joins the Filename
header into the path with no escaping: Filename "../../pwn" under base
directory /srv/app creates the file /srv/pwn, outside the base directory. -/
theorem c2_part0_traversal_writes_outside_base :
    (readRequestPart0 "/srv/app" noDirs c2Request).effects =
      [FsEffect.mkdir "/srv/app/docs", FsEffect.createFile "/srv/pwn" "x"] ∧
    isWithin "/srv/app" "/srv/pwn" = false := by
  decide

/-- C3: there is a Dir header value whose admitted upload is written outside
the configured base directory: handler.go escapes only the filename and joins
the Dir value raw, so Dir "../../x" lands the file at /x/a.txt while the base
is /srv/files. -/
theorem c3_dir_header_traversal :
    ∃ d p b : String,
      (readRequest "/srv/files" "http://h" noDirs
        { method := "POST", remoteAddr := "127.0.0.1:1",
          headers := [("Dir", [d]), ("Filename", ["a.txt"])], body := b }).effects =
        [FsEffect.mkdirAll (filepathJoin ["/srv/files", d]),
         FsEffect.createFile p b] ∧
      isWithin "/srv/files" p = false :=
  ⟨"../../x", "/x/a.txt", "hi", by decide⟩

/-- C4: whenever the admission pipeline produces a rejection, requestHandler
performs no filesystem effect and sends exactly the rejection payload; the
upload path (readRequest) is never taken. -/
theorem c4_rejected_never_reaches_upload
    (ips : List String) (fileDir baseUrl : String) (dirIsDir : String → Bool)
    (m : LimiterMap) (now : Nat) (r : Request) (msg : String)
    (h : (getRequestError ips m now r).1 = AdmissionResult.rejected msg) :
    (requestHandler ips fileDir baseUrl dirIsDir m now r).effects = [] ∧
    (requestHandler ips fileDir baseUrl dirIsDir m now r).responses = [Response.errJson msg] := by
  unfold requestHandler
  rcases hg : getRequestError ips m now r with ⟨res, m1⟩
  rw [hg] at h
  simp only at h
  subst h
  simp

/-- C4 witness: a GET request is rejected and produces no effects. -/
theorem c4_rejected_never_reaches_upload_witness :
    (requestHandler [] "/srv/files" "http://h" noDirs [] 0 c8Request).effects = [] ∧
    (requestHandler [] "/srv/files" "http://h" noDirs [] 0 c8Request).responses =
      [Response.errJson "Only POST allowed"] :=
  c4_rejected_never_reaches_upload [] "/srv/files" "http://h" noDirs [] 0 c8Request
    "Only POST allowed" (by decide)

/-- C5 as stated is false: the second request from 127.0.0.1 within 10ms is
rejected, but with the message "Rate limit exceeded for IP: 127.0.0.1", not
the claimed "rate limit exceeded for address: 127.0.0.1". -/
theorem c5_message_counterexample :
    (getRequestError ["127.0.0.1"] c5StateAfterFirst 10 c5Request).1 =
      AdmissionResult.rejected "Rate limit exceeded for IP: 127.0.0.1" ∧
    "Rate limit exceeded for IP: 127.0.0.1" ≠ "rate limit exceeded for address: 127.0.0.1" := by
  decide

/-- C5 amended: the first rate-limit check for an identity lazily creates its
token bucket (full burst of 1 token, i.e. 1000 millitokens, refilled at 20
tokens/s); a request that finds no token is rejected with
"Rate limit exceeded for IP: <identity>"; concretely, of two requests from
127.0.0.1 10ms apart the first is admitted and the second rejected with that
message. -/
theorem c5_rate_limit_amended :
    (∀ (m : LimiterMap) (ip : String) (now : Nat), lookupBucket m ip = none →
      getLimiter m ip now = (⟨1000, now⟩, m ++ [(ip, ⟨1000, now⟩)])) ∧
    (∀ (m : LimiterMap) (now : Nat) (ip : String), (limiterAllow m ip now).1 = false →
      rateStep m now ip =
        (AdmissionResult.rejected ("Rate limit exceeded for IP: " ++ ip),
         (limiterAllow m ip now).2)) ∧
    (getRequestError ["127.0.0.1"] [] 0 c5Request).1 = AdmissionResult.admitted ∧
    (getRequestError ["127.0.0.1"] c5StateAfterFirst 10 c5Request).1 =
      AdmissionResult.rejected "Rate limit exceeded for IP: 127.0.0.1" := by
  refine ⟨?_, ?_, by decide, by decide⟩
  · intro m ip now h
    unfold getLimiter
    rw [h]
  · intro m now ip h
    unfold rateStep
    simp [h]

/-- C5 witness: the bucket for a new identity is created full, and the
depleted bucket of 127.0.0.1 rejects with the rate-limit message. -/
theorem c5_rate_limit_amended_witness :
    getLimiter [] "8.8.8.8" 7 = (⟨1000, 7⟩, [("8.8.8.8", ⟨1000, 7⟩)]) ∧
    rateStep c5StateAfterFirst 10 "127.0.0.1" =
      (AdmissionResult.rejected "Rate limit exceeded for IP: 127.0.0.1",
       (limiterAllow c5StateAfterFirst "127.0.0.1" 10).2) :=
  ⟨c5_rate_limit_amended.1 [] "8.8.8.8" 7 (by decide),
   c5_rate_limit_amended.2.1 c5StateAfterFirst 10 "127.0.0.1" (by decide)⟩

/-- C6 as stated is false: the rejection message for an address outside the
non-empty allowlist is "IP is not allowed: <identity>", not the claimed
"address not allowed: <identity>". -/
theorem c6_message_counterexample :
    (getRequestError ["127.0.0.1"] [] 0 c6Request).1 =
      AdmissionResult.rejected "IP is not allowed: 10.0.0.1" ∧
    "IP is not allowed: 10.0.0.1" ≠ "address not allowed: 10.0.0.1" := by
  decide

/-- C6 amended: for a POST whose remote address parses, when the allowlist is
non-empty and the resolved identity (X-Real-Ip override when present and
parseable, the remote host otherwise) is not a member, the pipeline rejects
with "IP is not allowed: <a>" for an address a outside the allowlist. -/
theorem c6_allowlist_rejection
    (ips : List String) (m : LimiterMap) (now : Nat) (r : Request) (host port : String)
    (hm : r.method = "POST")
    (hp : splitHostPort r.remoteAddr = Except.ok (host, port))
    (hne : 0 < ips.length)
    (hid : ipList.contains ips (resolvedIdentity r host) = false) :
    ∃ a, ipList.contains ips a = false ∧
      (getRequestError ips m now r).1 =
        AdmissionResult.rejected ("IP is not allowed: " ++ a) := by
  unfold getRequestError
  rw [if_neg (by simp [hm]), hp]
  dsimp only
  by_cases hc : ipList.contains ips host = false
  · refine ⟨host, hc, ?_⟩
    rw [if_pos ⟨hne, hc⟩]
  · rw [if_neg (fun hand => hc hand.2)]
    unfold resolvedIdentity at hid
    cases ho : xriOverride r with
    | some c =>
      rw [ho] at hid
      dsimp only at hid
      dsimp only
      refine ⟨c, hid, ?_⟩
      rw [if_pos hid]
    | none =>
      rw [ho] at hid
      dsimp only at hid
      exact absurd hid hc

/-- C6 witness: 10.0.0.1 against the allowlist ["127.0.0.1"]. -/
theorem c6_allowlist_rejection_witness :
    ∃ a, ipList.contains ["127.0.0.1"] a = false ∧
      (getRequestError ["127.0.0.1"] [] 0 c6Request).1 =
        AdmissionResult.rejected ("IP is not allowed: " ++ a) :=
  c6_allowlist_rejection ["127.0.0.1"] [] 0 c6Request "10.0.0.1" "99"
    (by decide) rfl (by decide) (by decide)

/-- C7 as stated is false on the message: the error for a missing Dir header
is "expected Dir header", not the claimed "expected directory header". -/
theorem c7_message_counterexample :
    (readRequest "/srv/files" "http://h" noDirs c7Request).err =
      some "expected Dir header" ∧
    "expected Dir header" ≠ "expected directory header" := by
  decide

/-- C7 amended: a request with no Dir header makes readRequest return the
error "expected Dir header" with no filesystem effect and no response. -/
theorem c7_missing_dir_header
    (fileDir baseUrl : String) (dirIsDir : String → Bool) (r : Request)
    (hd : headerValues r.headers "Dir" = none) :
    readRequest fileDir baseUrl dirIsDir r =
      { effects := [], responses := [], err := some "expected Dir header" } := by
  unfold readRequest
  rw [hd]

/-- C7 witness: a headerless POST request. -/
theorem c7_missing_dir_header_witness :
    readRequest "/srv/files" "http://h" noDirs c7Request =
      { effects := [], responses := [], err := some "expected Dir header" } :=
  c7_missing_dir_header "/srv/files" "http://h" noDirs c7Request (by decide)

/-- C8 as stated is false on the message: a non-POST request is rejected with
"Only POST allowed", not the claimed "method not allowed". -/
theorem c8_message_counterexample :
    (getRequestError [] [] 0 c8Request).1 =
      AdmissionResult.rejected "Only POST allowed" ∧
    "Only POST allowed" ≠ "method not allowed" := by
  decide

/-- C8 amended: any request whose method is not POST is rejected with
"Only POST allowed" as the first check: the result is the same for every
allowlist, limiter registry, clock and header set, and the registry is
returned unchanged, so no rate-limit token is consumed. -/
theorem c8_method_check_first
    (ips : List String) (m : LimiterMap) (now : Nat) (r : Request)
    (h : r.method ≠ "POST") :
    getRequestError ips m now r = (AdmissionResult.rejected "Only POST allowed", m) := by
  unfold getRequestError
  simp [h]

/-- C8 witness: a GET request against a non-trivial registry. -/
theorem c8_method_check_first_witness :
    getRequestError ["1.2.3.4"] [("1.2.3.4", ⟨0, 0⟩)] 5 c8Request =
      (AdmissionResult.rejected "Only POST allowed", [("1.2.3.4", ⟨0, 0⟩)]) :=
  c8_method_check_first ["1.2.3.4"] [("1.2.3.4", ⟨0, 0⟩)] 5 c8Request (by decide)

/-- C9: the spec's success scenario, run through the full handler: allowlist
["127.0.0.1"], fresh limiter registry, Dir docs, Filename a.txt, body
"hello".  The directory /srv/files/docs is created, the file
/srv/files/docs/a.txt is written with contents "hello", and the one response
is the url <base>/docs/a.txt composed from the base URL, the sub-directory
and the escaped filename. -/
theorem c9_upload_success_scenario :
    requestHandler ["127.0.0.1"] "/srv/files" "http://127.0.0.1/okkam/files"
        noDirs [] 0 c9Request =
      { effects := [FsEffect.mkdirAll "/srv/files/docs",
                    FsEffect.createFile "/srv/files/docs/a.txt" "hello"],
        responses := [Response.urlJson "http://127.0.0.1/okkam/files/docs/a.txt"],
        limiters := [("127.0.0.1", ⟨0, 0⟩)] } := by
  decide

/-- C10: a request with a Dir header but no Filename header makes readRequest
return success (nil error) with no file written and no response sent, yet the
destination sub-directory, when it does not already exist, is created. -/
theorem c10_missing_filename_silent_mkdir
    (fileDir baseUrl : String) (dirIsDir : String → Bool) (r : Request)
    (d : String) (rest : List String)
    (hd : headerValues r.headers "Dir" = some (d :: rest))
    (hf : headerValues r.headers "Filename" = none)
    (hnd : dirIsDir (filepathJoin [fileDir, d]) = false) :
    readRequest fileDir baseUrl dirIsDir r =
      { effects := [FsEffect.mkdirAll (filepathJoin [fileDir, d])],
        responses := [], err := none } := by
  unfold readRequest
  rw [hd, hf]
  simp [hnd]

/-- C10 witness: Dir docs, no Filename, fresh filesystem. -/
theorem c10_missing_filename_silent_mkdir_witness :
    readRequest "/srv/files" "http://h" noDirs c10Request =
      { effects := [FsEffect.mkdirAll "/srv/files/docs"], responses := [], err := none } :=
  c10_missing_filename_silent_mkdir "/srv/files" "http://h" noDirs c10Request "docs" []
    (by decide) (by decide) (by decide)
